import Mathlib

/-!
Verification development for the sypher-stt capture/transcription core.

The embedding below translates the Python source (src/sypher_stt/audio.py,
transcriber.py, app.py, constants.py) into executable Lean definitions:

* audio samples are modelled as integers (the source uses float32 amplitudes
  whose values are never inspected by the core logic — only block lengths and
  concatenation matter to the verified properties);
* mutable objects become explicit state records, with each Python method a
  function from state to state (plus results);
* a raised Python exception becomes an `Option`-valued error component, with
  the pre-call state returned unchanged (a raise before any assignment leaves
  the object untouched, which the pair `state × Option error` makes explicit);
* interactions with the outside world (sounddevice streams, the filesystem
  holding model directories, the faster-whisper inference call, clipboard
  paste) are parameters: a boolean for device availability, predicates for
  on-disk artifacts, a segment-producing function for inference, and an
  output log for pastes.
-/

namespace SypherSTT

/-- An audio sample amplitude (the source uses float32; the core never
inspects values, so an abstract integer amplitude is used). -/
abbrev Sample := Int

/-! ### Constants (src/sypher_stt/constants.py) -/

def SAMPLE_RATE : Nat := 16000

def CHANNELS : Nat := 1

def BLOCK_SIZE : Nat := 1024

def MAX_RECORDING_SECONDS : Nat := 120

def AVAILABLE_MODELS : List String :=
  ["tiny.en", "tiny",
   "base.en", "base",
   "small.en", "small",
   "medium.en", "medium",
   "large-v2", "large-v3", "large-v3-turbo"]

def DEFAULT_MODEL : String := "base.en"

/-! ### AudioRecorder (src/sypher_stt/audio.py)

`AudioRecorder` holds `_chunks` (list of delivered blocks), the running
sample count `_samples_recorded`, an optional open input stream, and the
`_recording` event flag.  The sounddevice stream is modelled by the boolean
`streamOpen`; opening it can fail (PortAudioError), modelled by the
`deviceOk` parameter to `start_recording`. -/

structure AudioRecorder where
  chunks : List (List Sample)
  samplesRecorded : Nat
  streamOpen : Bool
  recording : Bool
deriving Repr, DecidableEq

/-- A raised `sd.PortAudioError` from opening/starting the input stream. -/
inductive DeviceError where
  | portAudioError
deriving Repr, DecidableEq

/-- Method `AudioRecorder.__init__`: empty buffer, no stream, not recording. -/
def AudioRecorder.init : AudioRecorder :=
  { chunks := [], samplesRecorded := 0, streamOpen := false, recording := false }

/-- Method `AudioRecorder._audio_callback`: called by sounddevice for each delivered
block (`indata[:, 0]` with `frames` rows).  While `_recording` is set it
appends the block, adds `frames` to the running count, and when the count
reaches `SAMPLE_RATE * MAX_RECORDING_SECONDS` it clears `_recording`
(auto-stop) after logging a warning; no exception is raised. -/
def AudioRecorder.audio_callback (block : List Sample) (st : AudioRecorder) :
    AudioRecorder :=
  if st.recording then
    let st1 := { st with
      chunks := st.chunks ++ [block],
      samplesRecorded := st.samplesRecorded + block.length }
    if SAMPLE_RATE * MAX_RECORDING_SECONDS ≤ st1.samplesRecorded then
      { st1 with recording := false }
    else
      st1
  else
    st

/-- Method `AudioRecorder.start_recording`: clears the buffer and count, sets
`_recording`, then opens and starts the input stream; on `PortAudioError`
clears `_recording` and re-raises (the stream field keeps its prior value,
the constructor having failed). -/
def AudioRecorder.start_recording (deviceOk : Bool) (st : AudioRecorder) :
    AudioRecorder × Option DeviceError :=
  let st1 := { st with chunks := [], samplesRecorded := 0, recording := true }
  if deviceOk then
    ({ st1 with streamOpen := true }, none)
  else
    ({ st1 with recording := false }, some DeviceError.portAudioError)

/-- Method `AudioRecorder.stop_recording`: clears `_recording`, stops and closes the
stream if one is open (exceptions from closing are caught and logged), sets
`_stream = None`, then concatenates and drains the chunk buffer, returning
the empty array when nothing was captured.  It never raises. -/
def AudioRecorder.stop_recording (st : AudioRecorder) :
    AudioRecorder × List Sample :=
  let st1 := { st with recording := false, streamOpen := false }
  if st.chunks ≠ [] then
    ({ st1 with chunks := [] }, st.chunks.flatten)
  else
    (st1, [])

/-- Property `AudioRecorder.is_recording`. -/
def AudioRecorder.is_recording (st : AudioRecorder) : Bool :=
  st.recording

/-- Deliver a sequence of blocks to the callback in order. -/
def AudioRecorder.deliverBlocks (blocks : List (List Sample)) (st : AudioRecorder) :
    AudioRecorder :=
  blocks.foldl (fun s b => AudioRecorder.audio_callback b s) st

/-! ### Transcriber (src/sypher_stt/transcriber.py)

`Transcriber` holds the configured `_model_size` and the lazily loaded
`_model` instance.  The loaded faster-whisper instance is identified by the
model name it was loaded with.  The filesystem is a pair of predicates on
model names — `dirExists name` for `MODELS_DIR / name` existing and
`binExists name` for `MODELS_DIR / name / "model.bin"` existing — and the
inference call is a parameter `run` mapping the loaded model name and the
audio to the list of recognized segment texts. -/

structure Transcriber where
  model_size : String
  model : Option String
deriving Repr, DecidableEq

/-- A raised exception from the transcriber layer. -/
inductive TranscriberError where
  /-- `ValueError` from an unknown model name. -/
  | valueError
  /-- `FileNotFoundError` from a missing on-disk model artifact. -/
  | fileNotFound
deriving Repr, DecidableEq

/-- Method `Transcriber.__init__`: validates `model_size` against
`AVAILABLE_MODELS`, raising `ValueError` otherwise; on success the model
instance starts absent. -/
def Transcriber.init (model_size : String) : Option Transcriber :=
  if model_size ∈ AVAILABLE_MODELS then
    some { model_size := model_size, model := none }
  else
    none

/-- Result of `Transcriber.ensure_model`: the post-call state and the raised
exception, if any (a raise leaves the state unchanged). -/
structure EnsureResult where
  st : Transcriber
  err : Option TranscriberError
deriving Repr, DecidableEq

/-- Method `Transcriber.ensure_model`: returns immediately when `_model` is already
loaded; otherwise checks that `MODELS_DIR / model_size` exists and contains
`model.bin`, raising `FileNotFoundError` when absent, and otherwise loads
the model instance for the configured name. -/
def Transcriber.ensure_model (dirExists binExists : String → Bool)
    (st : Transcriber) : EnsureResult :=
  match st.model with
  | some _ => { st := st, err := none }
  | none =>
    if dirExists st.model_size && binExists st.model_size then
      { st := { st with model := some st.model_size }, err := none }
    else
      { st := st, err := some TranscriberError.fileNotFound }

/-- Result of `Transcriber.transcribe`: post-call state, returned text,
whether `ensure_model` was entered, whether inference ran, and the raised
exception, if any. -/
structure TranscribeResult where
  st : Transcriber
  text : String
  ensureCalled : Bool
  modelInvoked : Bool
  err : Option TranscriberError
deriving Repr, DecidableEq

/-- Segment texts are stripped and joined with single spaces, and the result
trimmed: `" ".join(seg.text.strip() for seg in segments).strip()`. -/
def joinSegments (segments : List String) : String :=
  (String.intercalate " " (segments.map String.trim)).trim

/-- Method `Transcriber.transcribe`: inputs shorter than 1600 samples (0.1 s at
16 kHz) return the empty string without touching the model; otherwise
`ensure_model` runs (propagating its exception) and inference produces
segment texts that are stripped, joined and trimmed. -/
def Transcriber.transcribe (dirExists binExists : String → Bool)
    (run : String → List Sample → List String)
    (st : Transcriber) (audio : List Sample) : TranscribeResult :=
  if audio.length < 1600 then
    { st := st, text := "", ensureCalled := false, modelInvoked := false,
      err := none }
  else
    let r := Transcriber.ensure_model dirExists binExists st
    match r.err with
    | some e =>
      { st := r.st, text := "", ensureCalled := true, modelInvoked := false,
        err := some e }
    | none =>
      let segments := run (r.st.model.getD "") audio
      { st := r.st, text := joinSegments segments, ensureCalled := true,
        modelInvoked := true, err := none }

/-- The `Transcriber.model_size` setter: validates the new name against
`AVAILABLE_MODELS`, raising `ValueError` otherwise (before any assignment,
so the state is unchanged); when the valid name differs from the current
one it is assigned and the loaded instance discarded; when it is equal
nothing changes. -/
def Transcriber.set_model_size (value : String) (st : Transcriber) :
    Transcriber × Option TranscriberError :=
  if value ∈ AVAILABLE_MODELS then
    if value ≠ st.model_size then
      ({ model_size := value, model := none }, none)
    else
      (st, none)
  else
    (st, some TranscriberError.valueError)

/-- Property `Transcriber.is_loaded`. -/
def Transcriber.is_loaded (st : Transcriber) : Bool :=
  st.model.isSome

/-! ### SypherSTT coordinator (src/sypher_stt/app.py)

The application object wires the recorder and the transcriber behind the
hotkey callbacks.  Its cross-thread state is the `_processing` in-flight
flag; the tray state `AppState` mirrors the visible phase.  The `_transcribe`
closure launched on hotkey release is modelled as a separate event
(`transcription_task`) acting on the audio snapshot it captured
(`pendingAudio`).  Observation counters record the recorder and engine
interactions so that "no Recorder / engine call is made" claims are
expressible; `pasted` logs the texts handed to the output sink. -/

/-- Enumeration `tray.AppState` (src/sypher_stt/tray.py): visual states of the tray. -/
inductive AppState where
  | idle
  | recording
  | transcribing
deriving Repr, DecidableEq

structure CoordState where
  processing : Bool
  tray : AppState
  recorder : AudioRecorder
  transcriber : Transcriber
  pendingAudio : Option (List Sample)
  pasted : List String
  startCalls : Nat
  stopCalls : Nat
  modelInvocations : Nat
deriving Repr, DecidableEq

/-- The externally observable coordinator state-machine phase:
Transcribing while `_processing` is set, Recording while the recorder is
capturing, Idle otherwise. -/
inductive Phase where
  | idle
  | recording
  | transcribing
deriving Repr, DecidableEq

def CoordState.phase (st : CoordState) : Phase :=
  if st.processing then Phase.transcribing
  else if st.recorder.recording then Phase.recording
  else Phase.idle

/-- The application state right after `SypherSTT.__init__` (fresh recorder
and transcriber, nothing in flight). -/
def CoordState.initApp : CoordState :=
  { processing := false, tray := AppState.idle,
    recorder := AudioRecorder.init,
    transcriber := { model_size := DEFAULT_MODEL, model := none },
    pendingAudio := none, pasted := [],
    startCalls := 0, stopCalls := 0, modelInvocations := 0 }

/-- Method `SypherSTT._on_hotkey_press`: returns at once when `_processing` is set;
otherwise sets the tray to RECORDING and calls
`AudioRecorder.start_recording`, and on a raised device error reverts the
tray to IDLE after notifying. -/
def on_hotkey_press (deviceOk : Bool) (st : CoordState) : CoordState :=
  if st.processing then st
  else
    let r := st.recorder.start_recording deviceOk
    match r.2 with
    | none =>
      { st with
        tray := AppState.recording, recorder := r.1,
        startCalls := st.startCalls + 1 }
    | some _ =>
      { st with
        tray := AppState.idle, recorder := r.1,
        startCalls := st.startCalls + 1 }

/-- Method `SypherSTT._on_hotkey_release`: returns at once when `_processing` is
already set (transcription in flight); otherwise sets `_processing`, sets
the tray to TRANSCRIBING, synchronously calls
`AudioRecorder.stop_recording` to capture the sample snapshot, and launches
the `_transcribe` task on that snapshot. -/
def on_hotkey_release (st : CoordState) : CoordState :=
  if st.processing then st
  else
    let r := AudioRecorder.stop_recording st.recorder
    { st with
      processing := true, tray := AppState.transcribing,
      recorder := r.1, stopCalls := st.stopCalls + 1,
      pendingAudio := some r.2 }

/-- The body of the `_transcribe` closure (run on a background thread): in a
`try` it transcribes the captured audio and pastes non-empty text; any
exception is caught and reported; the `finally` clause clears `_processing`
and sets the tray to IDLE unconditionally. -/
def transcription_task (dirExists binExists : String → Bool)
    (run : String → List Sample → List String) (st : CoordState) : CoordState :=
  match st.pendingAudio with
  | none => st
  | some aud =>
    let r := Transcriber.transcribe dirExists binExists run st.transcriber aud
    let pasted1 :=
      if r.err = none ∧ r.text ≠ "" then st.pasted ++ [r.text] else st.pasted
    { st with
      transcriber := r.st, pendingAudio := none,
      pasted := pasted1,
      modelInvocations :=
        st.modelInvocations + (if r.modelInvoked then 1 else 0),
      processing := false, tray := AppState.idle }

/-- A delivered audio block during capture acts on the recorder component
only (the sounddevice callback thread). -/
def on_audio_block (block : List Sample) (st : CoordState) : CoordState :=
  { st with recorder := st.recorder.audio_callback block }

/-! ## Theorems -/

/-! ### Capture bound (claim C2)

The stream is opened with `blocksize=BLOCK_SIZE`, so sounddevice delivers
exactly `BLOCK_SIZE` frames per callback; `BLOCK_SIZE` divides
`SAMPLE_RATE * MAX_RECORDING_SECONDS` (1024 ∣ 1920000), so the running
count steps through multiples of the block size and lands exactly on the
cap. -/

/-- Invariant maintained by the block callback for `BLOCK_SIZE`-sized
blocks: the count never exceeds the cap, and while capture is active the
count is a strictly-below-cap multiple of the block size. -/
def CapInv (st : AudioRecorder) : Prop :=
  st.samplesRecorded ≤ SAMPLE_RATE * MAX_RECORDING_SECONDS ∧
  (st.recording = true →
    st.samplesRecorded < SAMPLE_RATE * MAX_RECORDING_SECONDS ∧
    BLOCK_SIZE ∣ st.samplesRecorded)

/-- Unfolding of the block callback (the intermediate mutated state
inlined). -/
theorem audio_callback_eq (block : List Sample) (st : AudioRecorder) :
    st.audio_callback block =
      if st.recording then
        if SAMPLE_RATE * MAX_RECORDING_SECONDS ≤
            st.samplesRecorded + block.length then
          { st with
            chunks := st.chunks ++ [block],
            samplesRecorded := st.samplesRecorded + block.length,
            recording := false }
        else
          { st with
            chunks := st.chunks ++ [block],
            samplesRecorded := st.samplesRecorded + block.length }
      else st := rfl

theorem audio_callback_capInv (block : List Sample) (st : AudioRecorder)
    (hlen : block.length = BLOCK_SIZE) (h : CapInv st) :
    CapInv (st.audio_callback block) := by
  obtain ⟨h1, h2⟩ := h
  rw [audio_callback_eq]
  cases hrec : st.recording with
  | false =>
    simp only [hrec, Bool.false_eq_true, if_false]
    exact ⟨h1, fun hf => absurd hf (by simp [hrec])⟩
  | true =>
    obtain ⟨hlt, k, hk⟩ := h2 hrec
    have hs : st.samplesRecorded = 1024 * k := by
      simpa [BLOCK_SIZE] using hk
    have hlt1 : st.samplesRecorded < 1920000 := by
      simpa [SAMPLE_RATE, MAX_RECORDING_SECONDS] using hlt
    simp only [hrec, if_true, hlen]
    by_cases hge :
        SAMPLE_RATE * MAX_RECORDING_SECONDS ≤ st.samplesRecorded + BLOCK_SIZE
    · simp only [hge, if_true]
      refine ⟨?_, fun hf => by simp at hf⟩
      simp only [SAMPLE_RATE, MAX_RECORDING_SECONDS, BLOCK_SIZE]
      omega
    · simp only [hge, if_false]
      have hge1 : ¬ (1920000 ≤ st.samplesRecorded + 1024) := by
        simpa [SAMPLE_RATE, MAX_RECORDING_SECONDS, BLOCK_SIZE] using hge
      refine ⟨?_, fun _ => ⟨?_, ⟨k + 1, ?_⟩⟩⟩
      · simp only [SAMPLE_RATE, MAX_RECORDING_SECONDS, BLOCK_SIZE]
        omega
      · simp only [SAMPLE_RATE, MAX_RECORDING_SECONDS, BLOCK_SIZE]
        omega
      · simp only [BLOCK_SIZE]
        omega

theorem deliverBlocks_capInv (blocks : List (List Sample))
    (st : AudioRecorder) (hb : ∀ b ∈ blocks, b.length = BLOCK_SIZE)
    (h : CapInv st) : CapInv (st.deliverBlocks blocks) := by
  induction blocks generalizing st with
  | nil => exact h
  | cons b bs ih =>
    exact ih (st.audio_callback b) (fun x hx => hb x (List.mem_cons_of_mem b hx))
      (audio_callback_capInv b st (hb b (List.mem_cons_self b bs)) h)

theorem start_recording_capInv (deviceOk : Bool) (st : AudioRecorder) :
    CapInv (st.start_recording deviceOk).1 := by
  unfold AudioRecorder.start_recording CapInv
  cases deviceOk <;> simp [SAMPLE_RATE, MAX_RECORDING_SECONDS]

/-- C2: for every recording session (started by `start_recording`) and every
sequence of delivered audio blocks (each of the fixed stream size
`BLOCK_SIZE` frames), the accumulated sample count never exceeds
`SAMPLE_RATE * MAX_RECORDING_SECONDS` (16000 × 120), and once that bound is
reached the capture flag has been cleared (auto-stop) by the callback,
which is a total function raising no error. -/
theorem C2_capture_bounded (deviceOk : Bool) (st0 : AudioRecorder)
    (blocks : List (List Sample))
    (hb : ∀ b ∈ blocks, b.length = BLOCK_SIZE) :
    (AudioRecorder.deliverBlocks blocks
        (st0.start_recording deviceOk).1).samplesRecorded
      ≤ SAMPLE_RATE * MAX_RECORDING_SECONDS ∧
    (SAMPLE_RATE * MAX_RECORDING_SECONDS ≤
        (AudioRecorder.deliverBlocks blocks
          (st0.start_recording deviceOk).1).samplesRecorded →
      (AudioRecorder.deliverBlocks blocks
        (st0.start_recording deviceOk).1).recording = false) := by
  have hinv := deliverBlocks_capInv blocks (st0.start_recording deviceOk).1 hb
    (start_recording_capInv deviceOk st0)
  refine ⟨hinv.1, fun hge => ?_⟩
  cases hrec : (AudioRecorder.deliverBlocks blocks
      (st0.start_recording deviceOk).1).recording with
  | false => rfl
  | true => exact absurd hge (Nat.not_le.mpr (hinv.2 hrec).1)

/-- C2 witness: a concrete one-block session satisfies the hypothesis and
stays within the bound. -/
theorem C2_capture_bounded_witness :
    (AudioRecorder.deliverBlocks [List.replicate BLOCK_SIZE 0]
        (AudioRecorder.init.start_recording true).1).samplesRecorded
      ≤ SAMPLE_RATE * MAX_RECORDING_SECONDS :=
  (C2_capture_bounded true AudioRecorder.init [List.replicate BLOCK_SIZE 0]
    (by intro b hbm; rw [List.mem_singleton] at hbm; rw [hbm]; simp)).1

/-! ### stop_recording (claims C6 and C10) -/

/-- C6: `stop_recording` always succeeds (it is a total function; stream
closing errors are caught in the source): it deactivates capture, closes
any open stream, and returns the concatenation of the accumulated chunks —
the empty sequence when nothing was captured — and it is safe after a
failed `start_recording` and on a freshly constructed recorder. -/
theorem C6_stop_recording_safe (st : AudioRecorder) :
    (st.stop_recording).1.recording = false ∧
    (st.stop_recording).1.streamOpen = false ∧
    (st.stop_recording).2 = st.chunks.flatten ∧
    (st.chunks = [] → (st.stop_recording).2 = []) ∧
    (((st.start_recording false).1).stop_recording).2 = [] ∧
    ((AudioRecorder.init).stop_recording).2 = [] := by
  unfold AudioRecorder.stop_recording AudioRecorder.start_recording
    AudioRecorder.init
  by_cases h : st.chunks = [] <;> simp [h]

/-- C6 witness: concrete instances of the guarantee, including a recorder
with captured chunks and one with an empty buffer. -/
theorem C6_stop_recording_safe_witness :
    (AudioRecorder.stop_recording ⟨[[1], [2, 3]], 3, true, true⟩).2 =
      [1, 2, 3] ∧
    (AudioRecorder.stop_recording ⟨[], 0, true, true⟩).2 = [] ∧
    (AudioRecorder.stop_recording ⟨[], 0, true, true⟩).1.recording = false :=
  ⟨by rw [(C6_stop_recording_safe ⟨[[1], [2, 3]], 3, true, true⟩).2.2.1]; rfl,
   (C6_stop_recording_safe ⟨[], 0, true, true⟩).2.2.2.1 rfl,
   (C6_stop_recording_safe ⟨[], 0, true, true⟩).1⟩

/-- C10: `stop_recording` drains the session: the chunk buffer is empty
after any call, so a second call with no intervening start or delivered
blocks returns the empty sequence — a captured sample sequence is delivered
at most once. -/
theorem C10_stop_recording_drains (st : AudioRecorder) :
    (st.stop_recording).1.chunks = [] ∧
    (((st.stop_recording).1).stop_recording).2 = [] := by
  unfold AudioRecorder.stop_recording
  by_cases h : st.chunks = [] <;> simp [h]

/-- C10 witness: a concrete double stop. -/
theorem C10_stop_recording_drains_witness :
    ((AudioRecorder.stop_recording ⟨[[7]], 1, true, true⟩).1).chunks = [] ∧
    ((AudioRecorder.stop_recording
        (AudioRecorder.stop_recording ⟨[[7]], 1, true, true⟩).1)).2 = [] :=
  C10_stop_recording_drains ⟨[[7]], 1, true, true⟩

/-! ### Transcriber theorems (claims C4, C7, C8, C9) -/

/-- C4: `transcribe` on fewer than 1600 samples (0.1 s at 16 kHz) returns
the empty string without entering `ensure_model` and without running
inference, leaving the state unchanged and raising nothing; on 1600 samples
or more it takes the model path (`ensure_model` is entered). -/
theorem C4_transcribe_short_input (dirExists binExists : String → Bool)
    (run : String → List Sample → List String) (st : Transcriber)
    (aud : List Sample) :
    (aud.length < 1600 →
      Transcriber.transcribe dirExists binExists run st aud =
        { st := st, text := "", ensureCalled := false, modelInvoked := false,
          err := none }) ∧
    (1600 ≤ aud.length →
      (Transcriber.transcribe dirExists binExists run st aud).ensureCalled =
        true) := by
  constructor
  · intro h
    unfold Transcriber.transcribe
    simp [h]
  · intro h
    unfold Transcriber.transcribe
    simp only [Nat.not_lt.mpr h, if_false]
    cases herr : (Transcriber.ensure_model dirExists binExists st).err <;>
      simp [herr]

/-- C4 witness: a 3-sample input short-circuits; a 1600-sample input takes
the model path. -/
theorem C4_transcribe_short_input_witness :
    Transcriber.transcribe (fun _ => true) (fun _ => true) (fun _ _ => ["hi"])
        { model_size := "base.en", model := none } [0, 0, 0] =
      { st := { model_size := "base.en", model := none }, text := "",
        ensureCalled := false, modelInvoked := false, err := none } ∧
    (Transcriber.transcribe (fun _ => true) (fun _ => true) (fun _ _ => ["hi"])
        { model_size := "base.en", model := none }
        (List.replicate 1600 0)).ensureCalled = true :=
  ⟨(C4_transcribe_short_input (fun _ => true) (fun _ => true) (fun _ _ => ["hi"])
      { model_size := "base.en", model := none } [0, 0, 0]).1
      (by norm_num [List.length]),
   (C4_transcribe_short_input (fun _ => true) (fun _ => true) (fun _ _ => ["hi"])
      { model_size := "base.en", model := none } (List.replicate 1600 0)).2
      (by rw [List.length_replicate])⟩

/-- C7: `ensure_model` raises `FileNotFoundError` exactly when no model is
loaded and the on-disk artifact (model directory containing `model.bin`) is
absent for the configured name — in which case the state is unchanged — and
once an instance is loaded every call returns immediately with the state
(and instance) unchanged. -/
theorem C7_ensure_model_spec (dirExists binExists : String → Bool)
    (st : Transcriber) :
    ((st.ensure_model dirExists binExists).err =
        some TranscriberError.fileNotFound ↔
      st.model = none ∧
        (dirExists st.model_size && binExists st.model_size) = false) ∧
    ((st.ensure_model dirExists binExists).err.isSome →
      (st.ensure_model dirExists binExists).st = st) ∧
    (∀ m, st.model = some m →
      st.ensure_model dirExists binExists = { st := st, err := none }) := by
  unfold Transcriber.ensure_model
  cases hm : st.model with
  | some m => simp
  | none =>
    cases hd : dirExists st.model_size && binExists st.model_size <;> simp [hd]

/-- C7 witness: with the artifact absent the error is raised and the state
kept; with an instance already loaded the call is an identity. -/
theorem C7_ensure_model_spec_witness :
    (Transcriber.ensure_model (fun _ => false) (fun _ => false)
        { model_size := "base.en", model := none }).err =
      some TranscriberError.fileNotFound ∧
    Transcriber.ensure_model (fun _ => false) (fun _ => false)
        { model_size := "base.en", model := some "base.en" } =
      { st := { model_size := "base.en", model := some "base.en" },
        err := none } :=
  ⟨(C7_ensure_model_spec (fun _ => false) (fun _ => false)
      { model_size := "base.en", model := none }).1.mpr ⟨rfl, rfl⟩,
   (C7_ensure_model_spec (fun _ => false) (fun _ => false)
      { model_size := "base.en", model := some "base.en" }).2.2 "base.en" rfl⟩

/-- C8: the `model_size` setter raises `ValueError` for names outside
`AVAILABLE_MODELS`, leaving the configured name and the loaded instance
unchanged; a valid name different from the current one is assigned and the
loaded instance discarded; a valid name equal to the current one leaves the
state (and instance) untouched. -/
theorem C8_set_model_size_spec (value : String) (st : Transcriber) :
    (value ∉ AVAILABLE_MODELS →
      st.set_model_size value = (st, some TranscriberError.valueError)) ∧
    (value ∈ AVAILABLE_MODELS → value ≠ st.model_size →
      st.set_model_size value =
        ({ model_size := value, model := none }, none)) ∧
    (value ∈ AVAILABLE_MODELS → value = st.model_size →
      st.set_model_size value = (st, none)) := by
  unfold Transcriber.set_model_size
  refine ⟨fun h => ?_, fun h hne => ?_, fun h he => ?_⟩
  · simp [h]
  · simp [h, hne]
  · subst he
    simp [h]

/-- C8 witness: an invalid name is rejected without touching the state; a
valid different name swaps and discards; the current name is a no-op. -/
theorem C8_set_model_size_spec_witness :
    Transcriber.set_model_size "bogus"
        { model_size := "base.en", model := some "base.en" } =
      ({ model_size := "base.en", model := some "base.en" },
        some TranscriberError.valueError) ∧
    Transcriber.set_model_size "tiny"
        { model_size := "base.en", model := some "base.en" } =
      ({ model_size := "tiny", model := none }, none) ∧
    Transcriber.set_model_size "base.en"
        { model_size := "base.en", model := some "base.en" } =
      ({ model_size := "base.en", model := some "base.en" }, none) :=
  ⟨(C8_set_model_size_spec "bogus"
      { model_size := "base.en", model := some "base.en" }).1 (by decide),
   (C8_set_model_size_spec "tiny"
      { model_size := "base.en", model := some "base.en" }).2.1 (by decide)
      (by decide),
   (C8_set_model_size_spec "base.en"
      { model_size := "base.en", model := some "base.en" }).2.2 (by decide)
      rfl⟩

/-! ### Model-name validity invariant (claim C9) -/

/-- The operations available on a constructed `Transcriber` (the only code
paths that touch `_model_size`). -/
inductive TranscriberOp where
  | setSize (value : String)
  | ensure (dirExists binExists : String → Bool)
  | doTranscribe (dirExists binExists : String → Bool)
      (run : String → List Sample → List String) (aud : List Sample)

def TranscriberOp.apply (op : TranscriberOp) (st : Transcriber) : Transcriber :=
  match op with
  | .setSize v => (st.set_model_size v).1
  | .ensure d b => (st.ensure_model d b).st
  | .doTranscribe d b r a => (st.transcribe d b r a).st

def runOps (ops : List TranscriberOp) (st : Transcriber) : Transcriber :=
  ops.foldl (fun s op => op.apply s) st

theorem ensure_model_model_size (dirExists binExists : String → Bool)
    (st : Transcriber) :
    (st.ensure_model dirExists binExists).st.model_size = st.model_size := by
  unfold Transcriber.ensure_model
  cases st.model <;>
    [cases dirExists st.model_size && binExists st.model_size <;> simp; simp]

theorem transcribe_model_size (dirExists binExists : String → Bool)
    (run : String → List Sample → List String) (st : Transcriber)
    (aud : List Sample) :
    (st.transcribe dirExists binExists run aud).st.model_size =
      st.model_size := by
  unfold Transcriber.transcribe
  by_cases h : aud.length < 1600
  · simp [h]
  · simp only [h, if_false]
    cases herr : (Transcriber.ensure_model dirExists binExists st).err <;>
      simpa [herr] using ensure_model_model_size dirExists binExists st

theorem transcriberOp_apply_mem (op : TranscriberOp) (st : Transcriber)
    (h : st.model_size ∈ AVAILABLE_MODELS) :
    (op.apply st).model_size ∈ AVAILABLE_MODELS := by
  cases op with
  | setSize v =>
    unfold TranscriberOp.apply Transcriber.set_model_size
    by_cases hv : v ∈ AVAILABLE_MODELS
    · by_cases hne : v ≠ st.model_size <;> simp [hv, hne, h]
    · simp [hv, h]
  | ensure d b =>
    simpa [TranscriberOp.apply, ensure_model_model_size] using h
  | doTranscribe d b r a =>
    simpa [TranscriberOp.apply, transcribe_model_size] using h

theorem runOps_mem (ops : List TranscriberOp) (st : Transcriber)
    (h : st.model_size ∈ AVAILABLE_MODELS) :
    (runOps ops st).model_size ∈ AVAILABLE_MODELS := by
  induction ops generalizing st with
  | nil => exact h
  | cons op ops ih => exact ih (op.apply st) (transcriberOp_apply_mem op st h)

/-- C9: the constructor rejects (raises `ValueError`, producing no
instance) exactly the names outside `AVAILABLE_MODELS`, and from any
successfully constructed `Transcriber`, every sequence of operations
(setter, `ensure_model`, `transcribe`) preserves membership of the
configured name in `AVAILABLE_MODELS` — no instance ever holds an
unsupported model name. -/
theorem C9_model_size_always_valid (name : String) (st : Transcriber)
    (ops : List TranscriberOp) :
    (Transcriber.init name = none ↔ name ∉ AVAILABLE_MODELS) ∧
    (Transcriber.init name = some st →
      (runOps ops st).model_size ∈ AVAILABLE_MODELS) := by
  constructor
  · unfold Transcriber.init
    by_cases h : name ∈ AVAILABLE_MODELS <;> simp [h]
  · intro hinit
    unfold Transcriber.init at hinit
    by_cases h : name ∈ AVAILABLE_MODELS
    · simp only [h, if_true, Option.some_inj] at hinit
      exact runOps_mem ops st (by rw [← hinit]; exact h)
    · simp [h] at hinit

/-- C9 witness: a constructed transcriber keeps a supported name through a
concrete operation sequence. -/
theorem C9_model_size_always_valid_witness :
    (runOps [TranscriberOp.setSize "tiny",
             TranscriberOp.ensure (fun _ => true) (fun _ => true),
             TranscriberOp.setSize "bogus",
             TranscriberOp.doTranscribe (fun _ => true) (fun _ => true)
               (fun _ _ => ["ok"]) []]
        { model_size := "base.en", model := none }).model_size ∈
      AVAILABLE_MODELS :=
  (C9_model_size_always_valid "base.en"
    { model_size := "base.en", model := none }
    [TranscriberOp.setSize "tiny",
     TranscriberOp.ensure (fun _ => true) (fun _ => true),
     TranscriberOp.setSize "bogus",
     TranscriberOp.doTranscribe (fun _ => true) (fun _ => true)
       (fun _ _ => ["ok"]) []]).2 (by simp [Transcriber.init, AVAILABLE_MODELS])

/-! ### Coordinator theorems (claims C1, C3, C5) -/

/-- A reachable coordinator state in phase Recording holding one captured
block: a press from the initial state followed by one delivered block. -/
def recordingState : CoordState :=
  on_audio_block [5] (on_hotkey_press true CoordState.initApp)

/-- C1 counterexample: with the coordinator in Recording (a non-Idle state,
reached by press-then-block from the initial state), a further hotkeyPress
is NOT rejected as a no-op — it performs a recorder start that discards the
captured chunk, entering Recording from a non-Idle state. -/
theorem C1_counterexample :
    recordingState.phase ≠ Phase.idle ∧
    on_hotkey_press true recordingState ≠ recordingState ∧
    (on_hotkey_press true recordingState).phase = Phase.recording ∧
    recordingState.recorder.chunks = [[5]] ∧
    (on_hotkey_press true recordingState).recorder.chunks = [] := by
  decide

/-- C1 (amended): a hotkeyPress is rejected as a no-op exactly when a
transcription is in flight (phase Transcribing) — so the coordinator never
enters Recording from Transcribing; a press in phase Recording is not
rejected: it restarts the recorder with a fresh session (chunk buffer
cleared, count zeroed, capture active exactly when the device opens). -/
theorem C1_press_guard (deviceOk : Bool) (st : CoordState) :
    (st.phase = Phase.transcribing → on_hotkey_press deviceOk st = st) ∧
    (st.phase = Phase.recording →
      (on_hotkey_press deviceOk st).recorder.chunks = [] ∧
      (on_hotkey_press deviceOk st).recorder.samplesRecorded = 0 ∧
      (on_hotkey_press deviceOk st).recorder.recording = deviceOk) := by
  constructor
  · intro h
    cases hp : st.processing with
    | true =>
      unfold on_hotkey_press
      simp [hp]
    | false =>
      exfalso
      unfold CoordState.phase at h
      rw [hp] at h
      cases hr : st.recorder.recording <;> rw [hr] at h <;> simp at h
  · intro h
    have hp : st.processing = false := by
      cases hp : st.processing with
      | false => rfl
      | true =>
        exfalso
        unfold CoordState.phase at h
        rw [hp] at h
        simp at h
    unfold on_hotkey_press AudioRecorder.start_recording
    cases deviceOk <;> simp [hp]

/-- C1 witness: pressing while a transcription is in flight changes
nothing; pressing in Recording empties the chunk buffer. -/
theorem C1_press_guard_witness :
    on_hotkey_press true (on_hotkey_release CoordState.initApp) =
      on_hotkey_release CoordState.initApp ∧
    (on_hotkey_press true recordingState).recorder.chunks = [] :=
  ⟨(C1_press_guard true (on_hotkey_release CoordState.initApp)).1 (by decide),
   ((C1_press_guard true recordingState).2 (by decide)).1⟩

/-- C3: whatever the outcome of the transcription task (success with text,
success with empty text, or a raised error — all captured by quantifying
over the filesystem and inference parameters), the `finally` clause clears
the in-flight flag and returns the visible state to Idle, consuming the
pending capture; the task body is a total function, so no exception escapes
it. -/
theorem C3_task_always_resets (dirExists binExists : String → Bool)
    (run : String → List Sample → List String) (st : CoordState)
    (aud : List Sample) (h : st.pendingAudio = some aud) :
    (transcription_task dirExists binExists run st).processing = false ∧
    (transcription_task dirExists binExists run st).tray = AppState.idle ∧
    (transcription_task dirExists binExists run st).pendingAudio = none := by
  unfold transcription_task
  rw [h]
  exact ⟨rfl, rfl, rfl⟩

/-- C3 witness: a concrete completed task (launched by a release from the
initial state) ends with the flag cleared and the tray Idle. -/
theorem C3_task_always_resets_witness :
    (transcription_task (fun _ => true) (fun _ => true) (fun _ _ => ["hi"])
        (on_hotkey_release CoordState.initApp)).processing = false ∧
    (transcription_task (fun _ => true) (fun _ => true) (fun _ _ => ["hi"])
        (on_hotkey_release CoordState.initApp)).tray = AppState.idle ∧
    (transcription_task (fun _ => true) (fun _ => true) (fun _ _ => ["hi"])
        (on_hotkey_release CoordState.initApp)).pendingAudio = none :=
  C3_task_always_resets (fun _ => true) (fun _ => true) (fun _ _ => ["hi"])
    (on_hotkey_release CoordState.initApp) [] (by decide)

/-- C5 counterexample: from the Idle initial state (no preceding press, no
transcription in flight), a hotkeyRelease is NOT a no-op — it calls the
method `stop_recording` of the recorder and leaves the Idle phase. -/
theorem C5_counterexample :
    CoordState.initApp.phase = Phase.idle ∧
    (on_hotkey_release CoordState.initApp).stopCalls =
      CoordState.initApp.stopCalls + 1 ∧
    (on_hotkey_release CoordState.initApp).phase ≠ Phase.idle := by
  decide

/-- C5 (amended): a hotkeyRelease with no transcription in flight is
accepted even without a preceding press: it calls `stop_recording` on the
recorder (one Recorder call, returning the empty capture) and enters
Transcribing; because the captured audio is empty, the launched task
invokes no engine model, delivers no output, leaves the transcriber
untouched, and returns the state to Idle on completion.  (A release is a
no-op only when a transcription is already in flight.) -/
theorem C5_release_spurious (dirExists binExists : String → Bool)
    (run : String → List Sample → List String) (st : CoordState)
    (hp : st.processing = false) (hc : st.recorder.chunks = []) :
    (on_hotkey_release st).stopCalls = st.stopCalls + 1 ∧
    (on_hotkey_release st).phase = Phase.transcribing ∧
    (transcription_task dirExists binExists run
        (on_hotkey_release st)).processing = false ∧
    (transcription_task dirExists binExists run
        (on_hotkey_release st)).tray = AppState.idle ∧
    (transcription_task dirExists binExists run
        (on_hotkey_release st)).pasted = st.pasted ∧
    (transcription_task dirExists binExists run
        (on_hotkey_release st)).modelInvocations = st.modelInvocations ∧
    (transcription_task dirExists binExists run
        (on_hotkey_release st)).transcriber = st.transcriber := by
  unfold on_hotkey_release transcription_task AudioRecorder.stop_recording
    Transcriber.transcribe CoordState.phase
  simp [hp, hc]

/-- C5 witness: the concrete spurious release from the initial state. -/
theorem C5_release_spurious_witness :
    (on_hotkey_release CoordState.initApp).stopCalls =
      CoordState.initApp.stopCalls + 1 ∧
    (transcription_task (fun _ => false) (fun _ => false) (fun _ _ => [])
        (on_hotkey_release CoordState.initApp)).modelInvocations =
      CoordState.initApp.modelInvocations :=
  ⟨(C5_release_spurious (fun _ => false) (fun _ => false) (fun _ _ => [])
      CoordState.initApp rfl rfl).1,
   (C5_release_spurious (fun _ => false) (fun _ => false) (fun _ _ => [])
      CoordState.initApp rfl rfl).2.2.2.2.2.1⟩

end SypherSTT
